import Mathlib

/-!
# Verification of the touch-gesture classifier

A shallow embedding of `src/shared/js/touch-optimizer.js` (the `TouchHandler`
object): the gesture-recognition state machine that classifies raw contact
events into tap / double-tap / long-press / swipe / pinch / rotate gestures.

Modelling conventions:
* Pixel coordinates and clock readings (`Date.now()` values, milliseconds) are
  integers (`Int`).  Derived quantities that JavaScript computes with float
  division (`velocity`, `scale`, midpoints) are rationals (`ℚ`).
* `Math.sqrt` is modelled by `jsSqrt`, the integer (floor) square root of the
  integer squared distance.  This is exact on perfect squares, and for the
  integer thresholds used by the classifier the branch tests agree exactly
  with the real square root (`jsSqrt_lt_iff` / `jsSqrt_le_iff` below).
* `Math.atan2` is transcendental; no claim constrains angle values, so it is
  modelled by `jsAtan2`, a computable quadrant-aware surrogate that, like
  `atan2`, depends only on the pair of deltas.  The degree conversion factor
  `180 / Math.PI` is likewise a fixed rational constant `RAD_TO_DEG`.
* `setTimeout` / `clearTimeout` are modelled by an explicit list of pending
  timers `(id, deadline)` plus a fresh-id counter.  The only callback ever
  scheduled by the classifier is `triggerLongPress`; the host firing a due
  timer is the explicit step `fireTimer`.
* `dispatchGestureEvent` and `dispatchTouchEvent` are modelled as values
  appended to an output list (`Emitted.gesture` for classified gestures,
  `Emitted.domEvent` for the `game:touch*` pass-through custom events).
  Haptic/visual feedback (`vibrate`, `showTouchFeedback`) and the DOM wiring
  are presentational side effects outside the classifier's state and output.
* `event.touches[0]` on an empty touch list would throw in JavaScript, so the
  handlers that read it return `Option` and yield `none` there.
-/

/- The `Rat` arithmetic operations in Batteries are `@[irreducible]`, which
blocks `decide` on concrete rational computations; restore the default
reducibility locally for this development. -/
attribute [local semireducible] Rat.mul Rat.inv Rat.add Rat.sub

namespace TouchOptimizer

/-! ## Configuration (`TouchConfig`, touch-optimizer.js lines 8-29)

Defaults as declared in the source; `init` can override them, the claims are
about the default configuration. -/

def SWIPE_THRESHOLD : ℚ := 30

def TAP_THRESHOLD : ℚ := 10

def LONG_PRESS_DURATION : Int := 500

def ENABLE_PINCH_ZOOM : Bool := true

def ENABLE_ROTATE : Bool := true

/-! ## Data model -/

/-- One active contact point of a touch event (`Touch.clientX/clientY`). -/
structure ContactPoint where
  clientX : Int
  clientY : Int
deriving DecidableEq

/-- The part of a DOM `TouchEvent` the classifier reads: the ordered list of
currently active contact points (`event.touches`). -/
structure TouchEvt where
  touches : List ContactPoint
deriving DecidableEq

/-- `TouchHandler.touchState` (lines 34-44).  `longPressTimer` holds the id
returned by the modelled `setTimeout`, `none` for JavaScript `null`. -/
structure TouchState where
  startX : Int
  startY : Int
  startTime : Int
  currentX : Int
  currentY : Int
  isTouching : Bool
  touchCount : Nat
  lastTapTime : Int
  longPressTimer : Option Nat
deriving DecidableEq

/-- `TouchHandler.gestureState` (lines 47-52).  The source field `rotation`
is named `rot` here. -/
structure GestureState where
  scale : ℚ
  rot : ℚ
  initialDistance : ℚ
  initialAngle : ℚ
deriving DecidableEq

/-- The whole machine: both mutable state records of `TouchHandler` plus the
modelled timer service (pending `setTimeout` callbacks and a fresh-id
counter). -/
structure Machine where
  touch : TouchState
  gesture : GestureState
  pendingTimers : List (Nat × Int)
  nextTimerId : Nat
deriving DecidableEq

/-- Swipe direction strings of `handleSwipe`. -/
inductive Direction where
  | left
  | right
  | up
  | down
deriving DecidableEq

/-- The classified gestures dispatched via `dispatchGestureEvent`, with the
payload fields each carries in the source. -/
inductive GestureEvent where
  | tap (x y : Int) (duration : Int)
  | doubletap (x y : Int) (duration : Int)
  | longpress (x y : Int) (duration : Int)
  | swipe (direction : Direction) (deltaX deltaY : Int) (distance : ℚ)
      (angle : ℚ) (velocity : ℚ) (duration : Int)
  | pinch (scale : ℚ) (centerX centerY : ℚ)
  | rotate ( rot : ℚ) (centerX centerY : ℚ)
deriving DecidableEq

/-- The pass-through custom events dispatched via `dispatchTouchEvent`. -/
inductive TouchEventKind where
  | touchstart
  | touchmove
  | touchend
  | touchcancel
deriving DecidableEq

/-- Everything the classifier emits to the host. -/
inductive Emitted where
  | gesture (g : GestureEvent)
  | domEvent (k : TouchEventKind)
deriving DecidableEq

/-- The classified gestures among an output list. -/
def gesturesOf (outs : List Emitted) : List GestureEvent :=
  outs.filterMap fun e =>
    match e with
    | .gesture g => some g
    | .domEvent _ => none

/-- Initial `touchState` (lines 34-44 / `reset`, lines 576-586). -/
def initialTouchState : TouchState :=
  { startX := 0, startY := 0, startTime := 0, currentX := 0, currentY := 0,
    isTouching := false, touchCount := 0, lastTapTime := 0,
    longPressTimer := none }

/-- Initial `gestureState` (lines 47-52 / `reset`, lines 588-593). -/
def initialGestureState : GestureState :=
  { scale := 1, rot := 0, initialDistance := 0, initialAngle := 0 }

/-- The machine before any touch event, with no pending timers. -/
def initialMachine : Machine :=
  { touch := initialTouchState, gesture := initialGestureState,
    pendingTimers := [], nextTimerId := 0 }

/-! ## Numeric helpers -/

/-- Integer (floor) square root by digit recursion; the first argument is
fuel (any fuel ≥ the recursion depth, which is logarithmic, is enough). -/
def isqrtAux : Nat → Nat → Nat
  | 0, _ => 0
  | fuel + 1, n =>
    if n < 2 then n
    else
      let s := isqrtAux fuel (n / 4) * 2
      if (s + 1) * (s + 1) ≤ n then s + 1 else s

/-- Integer (floor) square root. -/
def isqrt (n : Nat) : Nat := isqrtAux n n

/-- Model of `Math.sqrt` applied to an integer sum of squares: the floor
square root, as a rational.  Exact on perfect squares; `jsSqrt_lt_iff` and
`jsSqrt_le_iff` show the classifier's threshold tests agree with the real
square root on integer inputs. -/
def jsSqrt (n : Int) : ℚ := (isqrt n.toNat : ℚ)

/-- Computable surrogate for `Math.atan2 dy dx` (transcendental; no claim
constrains angle values, only that the angle is a function of the two
deltas).  Quadrant-aware monotone rational angle. -/
def jsAtan2 (dy dx : Int) : ℚ :=
  if dx = 0 ∧ dy = 0 then 0
  else
    let r : ℚ := (dy : ℚ) / ((dx.natAbs : ℚ) + (dy.natAbs : ℚ))
    if 0 ≤ dx then r
    else if 0 ≤ dy then 2 - r
    else -2 - r

/-- Rational stand-in for the float constant `180 / Math.PI` used by
`handleSwipe` for its `angle` payload field. -/
def RAD_TO_DEG : ℚ := 180 * 113 / 355

/-! ## Timer service (models `setTimeout` / `clearTimeout`) -/

/-- `clearTimeout id`: the callback with that id will no longer fire.
Clearing an id that is not pending is a no-op, as in JavaScript. -/
def clearTimeoutJs (id : Nat) (timers : List (Nat × Int)) : List (Nat × Int) :=
  timers.filter fun p => p.1 ≠ id

/-- The timer-clearing block that appears verbatim in `handleTouchMove`
(lines 154-157), `handleTouchEnd` (lines 179-182) and `handleTouchCancel`
(lines 204-207): if `touchState.longPressTimer` is set, `clearTimeout` it and
null the field. -/
def clearLongPressTimer (m : Machine) : Machine :=
  match m.touch.longPressTimer with
  | some id =>
    { m with
      touch := { m.touch with longPressTimer := none },
      pendingTimers := clearTimeoutJs id m.pendingTimers }
  | none => m

/-! ## Handlers -/

/-- `handleMultiTouchStart` (lines 218-230): record the reference distance
and angle between the first two contacts, reset scale and rotation. -/
def handleMultiTouchStart (ev : TouchEvt) (m : Machine) : Machine :=
  match ev.touches with
  | t1 :: t2 :: _ =>
    let dx := t2.clientX - t1.clientX
    let dy := t2.clientY - t1.clientY
    { m with
      gesture :=
        { initialDistance := jsSqrt (dx * dx + dy * dy),
          initialAngle := jsAtan2 dy dx, scale := 1, rot := 0 } }
  | _ => m

/-- `handleMultiTouchMove` (lines 233-268): recompute distance/angle between
the first two contacts, update scale (only when `initialDistance > 0`) and
rotation (when rotation is enabled), then dispatch a `pinch` and, if enabled,
a `rotate` gesture, both centered at the contacts' midpoint. -/
def handleMultiTouchMove (ev : TouchEvt) (m : Machine) : Machine × List Emitted :=
  match ev.touches with
  | t1 :: t2 :: _ =>
    let dx := t2.clientX - t1.clientX
    let dy := t2.clientY - t1.clientY
    let currentDistance := jsSqrt (dx * dx + dy * dy)
    let currentAngle := jsAtan2 dy dx
    let g1 :=
      if 0 < m.gesture.initialDistance then
        { m.gesture with scale := currentDistance / m.gesture.initialDistance }
      else m.gesture
    let g2 :=
      if ENABLE_ROTATE then { g1 with rot := currentAngle - g1.initialAngle }
      else g1
    let centerX : ℚ := ((t1.clientX + t2.clientX : Int) : ℚ) / 2
    let centerY : ℚ := ((t1.clientY + t2.clientY : Int) : ℚ) / 2
    ({ m with gesture := g2 },
      [Emitted.gesture (.pinch g2.scale centerX centerY)] ++
        (if ENABLE_ROTATE then
          [Emitted.gesture (.rotate g2.rot centerX centerY)]
        else []))
  | _ => (m, [])

/-- `handleTouchStart` (lines 111-143): record start/current position and
time from `touches[0]`, mark the session active, arm a long-press timer (the
previous timer, if any, is NOT cleared first — `setTimeout` simply overwrites
the stored id), run two-contact setup when exactly two contacts are present,
and dispatch the `game:touchstart` pass-through event.  `now` is the
`Date.now()` reading. -/
def handleTouchStart (now : Int) (ev : TouchEvt) (m : Machine) :
    Option (Machine × List Emitted) :=
  match ev.touches with
  | [] => none
  | touch :: _ =>
    let ts :=
      { m.touch with
        startX := touch.clientX, startY := touch.clientY, startTime := now,
        currentX := touch.clientX, currentY := touch.clientY,
        isTouching := true, touchCount := ev.touches.length,
        longPressTimer := some m.nextTimerId }
    let m1 : Machine :=
      { m with
        touch := ts,
        pendingTimers :=
          m.pendingTimers ++ [(m.nextTimerId, now + LONG_PRESS_DURATION)],
        nextTimerId := m.nextTimerId + 1 }
    let m2 :=
      if ev.touches.length = 2 ∧ ENABLE_PINCH_ZOOM then
        handleMultiTouchStart ev m1
      else m1
    some (m2, [Emitted.domEvent .touchstart])

/-- `handleTouchMove` (lines 146-166): no-op unless a session is active;
update the current position from `touches[0]`, clear the long-press timer if
set, run two-contact tracking when exactly two contacts are present, and
dispatch the `game:touchmove` pass-through event. -/
def handleTouchMove (ev : TouchEvt) (m : Machine) :
    Option (Machine × List Emitted) :=
  if m.touch.isTouching = false then some (m, [])
  else
    match ev.touches with
    | [] => none
    | touch :: _ =>
      let m1 : Machine :=
        { m with
          touch :=
            { m.touch with currentX := touch.clientX, currentY := touch.clientY } }
      let m2 := clearLongPressTimer m1
      let r :=
        if ev.touches.length = 2 ∧ ENABLE_PINCH_ZOOM then
          handleMultiTouchMove ev m2
        else (m2, [])
      some (r.1, r.2 ++ [Emitted.domEvent .touchmove])

/-- `handleTap` (lines 271-296): double-tap if less than 300 ms since the
recorded last tap (then reset `lastTapTime` to 0), otherwise tap (then record
`lastTapTime := now`).  The event position is the current position.  `now` is
the `Date.now()` reading, which within one synchronous `handleTouchEnd` call
equals the end-time reading. -/
def handleTap (now : Int) (duration : Int) (m : Machine) :
    Machine × List Emitted :=
  let timeSinceLastTap := now - m.touch.lastTapTime
  if timeSinceLastTap < 300 then
    ({ m with touch := { m.touch with lastTapTime := 0 } },
      [Emitted.gesture (.doubletap m.touch.currentX m.touch.currentY duration)])
  else
    ({ m with touch := { m.touch with lastTapTime := now } },
      [Emitted.gesture (.tap m.touch.currentX m.touch.currentY duration)])

/-- `handleSwipe` (lines 299-329): dominant-axis direction (ties go to the
vertical branch, as in the source's `else`), `velocity = distance / duration`,
`angle` in degrees. -/
def handleSwipe (now : Int) (deltaX deltaY : Int) (distance : ℚ) (m : Machine) :
    Machine × List Emitted :=
  let angle := jsAtan2 deltaY deltaX * RAD_TO_DEG
  let duration := now - m.touch.startTime
  let velocity := distance / (duration : ℚ)
  let direction :=
    if deltaY.natAbs < deltaX.natAbs then
      if 0 < deltaX then Direction.right else Direction.left
    else
      if 0 < deltaY then Direction.down else Direction.up
  (m, [Emitted.gesture
        (.swipe direction deltaX deltaY distance angle velocity duration)])

/-- `handleTouchEnd` (lines 169-199): no-op unless a session is active;
compute duration, deltas and distance, clear the long-press timer if set,
classify (tap/double-tap when `distance < 10 ∧ duration < 300`, else swipe
when `distance ≥ 30 ∧ duration < 500`, else nothing), then reset `isTouching`
and `touchCount` and dispatch the `game:touchend` pass-through event. -/
def handleTouchEnd (now : Int) (m : Machine) : Machine × List Emitted :=
  if m.touch.isTouching = false then (m, [])
  else
    let duration := now - m.touch.startTime
    let deltaX := m.touch.currentX - m.touch.startX
    let deltaY := m.touch.currentY - m.touch.startY
    let distance := jsSqrt (deltaX * deltaX + deltaY * deltaY)
    let m1 := clearLongPressTimer m
    let r :=
      if distance < TAP_THRESHOLD ∧ duration < 300 then
        handleTap now duration m1
      else if SWIPE_THRESHOLD ≤ distance ∧ duration < 500 then
        handleSwipe now deltaX deltaY distance m1
      else (m1, [])
    ({ r.1 with
        touch := { r.1.touch with isTouching := false, touchCount := 0 } },
      r.2 ++ [Emitted.domEvent .touchend])

/-- `handleTouchCancel` (lines 202-215): clear the long-press timer if set,
reset `isTouching` and `touchCount`, dispatch only the `game:touchcancel`
pass-through event. -/
def handleTouchCancel (m : Machine) : Machine × List Emitted :=
  let m1 := clearLongPressTimer m
  ({ m1 with
      touch := { m1.touch with isTouching := false, touchCount := 0 } },
    [Emitted.domEvent .touchcancel])

/-- `triggerLongPress` (lines 332-348): dispatch a `longpress` gesture at the
current position with the configured long-press duration; the touch state is
not modified (in particular the session stays active and the stale timer id
remains in `longPressTimer`). -/
def triggerLongPress (m : Machine) : Machine × List Emitted :=
  (m, [Emitted.gesture
        (.longpress m.touch.currentX m.touch.currentY LONG_PRESS_DURATION)])

/-- The host scheduler invoking the callback of pending timer `id` at clock
reading `now`: only possible once the deadline has passed and the timer has
not been cleared; firing consumes the timer and runs `triggerLongPress` (the
only callback the classifier ever schedules). -/
def fireTimer (now : Int) (id : Nat) (m : Machine) :
    Option (Machine × List Emitted) :=
  match m.pendingTimers.find? (fun p => p.1 = id) with
  | some p =>
    if p.2 ≤ now then
      some (triggerLongPress
        { m with pendingTimers := clearTimeoutJs id m.pendingTimers })
    else none
  | none => none

end TouchOptimizer

namespace TouchOptimizer

/-! ## Supporting lemmas -/

theorem gesturesOf_append (a b : List Emitted) :
    gesturesOf (a ++ b) = gesturesOf a ++ gesturesOf b :=
  List.filterMap_append a b _

theorem gesturesOf_domEvent (k : TouchEventKind) :
    gesturesOf [Emitted.domEvent k] = [] := rfl

/-- Correctness of the floor square root: `isqrtAux fuel n` squares to at
most `n` and is the largest such, provided `fuel ≥ n`. -/
theorem isqrtAux_spec :
    ∀ fuel n : Nat, n ≤ fuel →
      isqrtAux fuel n * isqrtAux fuel n ≤ n ∧
        n < (isqrtAux fuel n + 1) * (isqrtAux fuel n + 1) := by
  intro fuel
  induction fuel with
  | zero =>
    intro n hn
    have : n = 0 := by omega
    subst this
    simp [isqrtAux]
  | succ f ih =>
    intro n hn
    by_cases h2 : n < 2
    · unfold isqrtAux
      rw [if_pos h2]
      constructor
      · nlinarith
      · nlinarith
    · unfold isqrtAux
      rw [if_neg h2]
      have hrec : n / 4 ≤ f := by omega
      obtain ⟨hl, hr⟩ := ih (n / 4) hrec
      set t := isqrtAux f (n / 4) with ht
      by_cases hs : (t * 2 + 1) * (t * 2 + 1) ≤ n
      · rw [if_pos hs]
        refine ⟨hs, ?_⟩
        have e : (t * 2 + 1 + 1) * (t * 2 + 1 + 1) = 4 * ((t + 1) * (t + 1)) := by
          ring
        rw [e]
        generalize hA : (t + 1) * (t + 1) = A at hr
        omega
      · rw [if_neg hs]
        constructor
        · have e : t * 2 * (t * 2) = 4 * (t * t) := by ring
          rw [e]
          generalize hA : t * t = A at hl
          omega
        · omega

theorem isqrt_spec (n : Nat) :
    isqrt n * isqrt n ≤ n ∧ n < (isqrt n + 1) * (isqrt n + 1) :=
  isqrtAux_spec n n le_rfl

/-- Faithfulness of the `Math.sqrt` model for the classifier's strict
threshold tests: on a nonnegative integer squared distance, comparing the
modelled distance against an integer threshold `k` is the same as comparing
against the real square root. -/
theorem jsSqrt_lt_iff (k : Nat) (n : Int) (hn : 0 ≤ n) :
    jsSqrt n < (k : ℚ) ↔ n < ((k * k : Nat) : Int) := by
  unfold jsSqrt
  rw [Nat.cast_lt]
  obtain ⟨hl, hr⟩ := isqrt_spec n.toNat
  constructor
  · intro h
    have hk : isqrt n.toNat + 1 ≤ k := h
    have : n.toNat < k * k :=
      lt_of_lt_of_le hr (Nat.mul_le_mul hk hk)
    omega
  · intro h
    by_contra hc
    push_neg at hc
    have : k * k ≤ isqrt n.toNat * isqrt n.toNat := Nat.mul_le_mul hc hc
    omega

/-- Faithfulness of the `Math.sqrt` model for the classifier's non-strict
threshold tests. -/
theorem jsSqrt_le_iff (k : Nat) (n : Int) (hn : 0 ≤ n) :
    (k : ℚ) ≤ jsSqrt n ↔ ((k * k : Nat) : Int) ≤ n := by
  unfold jsSqrt
  rw [Nat.cast_le]
  obtain ⟨hl, hr⟩ := isqrt_spec n.toNat
  constructor
  · intro h
    have : k * k ≤ isqrt n.toNat * isqrt n.toNat := Nat.mul_le_mul h h
    omega
  · intro h
    by_contra hc
    push_neg at hc
    have hk : isqrt n.toNat + 1 ≤ k := hc
    have : n.toNat < k * k := lt_of_lt_of_le hr (Nat.mul_le_mul hk hk)
    omega

/-- `handleMultiTouchStart` only writes `gestureState`. -/
theorem handleMultiTouchStart_touch (ev : TouchEvt) (m : Machine) :
    (handleMultiTouchStart ev m).touch = m.touch := by
  unfold handleMultiTouchStart
  rcases ev with ⟨_ | ⟨t1, _ | ⟨t2, rest⟩⟩⟩ <;> rfl

/-- `handleMultiTouchStart` does not touch the timer service. -/
theorem handleMultiTouchStart_pendingTimers (ev : TouchEvt) (m : Machine) :
    (handleMultiTouchStart ev m).pendingTimers = m.pendingTimers := by
  unfold handleMultiTouchStart
  rcases ev with ⟨_ | ⟨t1, _ | ⟨t2, rest⟩⟩⟩ <;> rfl

/-- `handleMultiTouchMove` only writes `gestureState` and emits gestures. -/
theorem handleMultiTouchMove_touch (ev : TouchEvt) (m : Machine) :
    (handleMultiTouchMove ev m).1.touch = m.touch := by
  unfold handleMultiTouchMove
  rcases ev with ⟨_ | ⟨t1, _ | ⟨t2, rest⟩⟩⟩ <;> rfl

/-- `handleMultiTouchMove` does not touch the timer service. -/
theorem handleMultiTouchMove_pendingTimers (ev : TouchEvt) (m : Machine) :
    (handleMultiTouchMove ev m).1.pendingTimers = m.pendingTimers := by
  unfold handleMultiTouchMove
  rcases ev with ⟨_ | ⟨t1, _ | ⟨t2, rest⟩⟩⟩ <;> rfl

/-- `clearLongPressTimer` does not touch `gestureState`. -/
theorem clearLongPressTimer_gesture (m : Machine) :
    (clearLongPressTimer m).gesture = m.gesture := by
  unfold clearLongPressTimer
  rcases h : m.touch.longPressTimer with _ | id <;> rfl

/-- What every successful `handleTouchStart` does to the session and timer
state: the session becomes active, a fresh long-press timer is armed and
referenced, and — crucially — the previously pending timers are all still
pending (nothing is disarmed). -/
theorem handleTouchStart_char (now : Int) (ev : TouchEvt) (m : Machine)
    (p : Machine × List Emitted) (h : handleTouchStart now ev m = some p) :
    p.1.touch.isTouching = true ∧
      p.1.touch.longPressTimer = some m.nextTimerId ∧
      p.1.pendingTimers =
        m.pendingTimers ++ [(m.nextTimerId, now + LONG_PRESS_DURATION)] ∧
      p.1.touch.startTime = now := by
  unfold handleTouchStart at h
  rcases hev : ev.touches with _ | ⟨touch, rest⟩
  · rw [hev] at h
    exact absurd h (by simp)
  · rw [hev] at h
    simp only [Option.some.injEq] at h
    subst h
    by_cases hc : (touch :: rest).length = 2 ∧ ENABLE_PINCH_ZOOM = true
    · rw [if_pos hc]
      rw [handleMultiTouchStart_touch, handleMultiTouchStart_pendingTimers]
      exact ⟨rfl, rfl, rfl, rfl⟩
    · rw [if_neg hc]
      exact ⟨rfl, rfl, rfl, rfl⟩

end TouchOptimizer

namespace TouchOptimizer

/-- `clearLongPressTimer` keeps every `touchState` field except the timer
reference. -/
theorem clearLongPressTimer_touch (m : Machine) :
    (clearLongPressTimer m).touch = { m.touch with longPressTimer := none } := by
  obtain ⟨⟨a, b, c, d, e, f, g, h, i⟩, ges, pt, nid⟩ := m
  cases i <;> rfl

/-- `clearLongPressTimer` on a state that references timer `id` removes it
from the pending timers. -/
theorem clearLongPressTimer_some (m : Machine) (id : Nat)
    (h : m.touch.longPressTimer = some id) :
    (clearLongPressTimer m).pendingTimers = clearTimeoutJs id m.pendingTimers := by
  unfold clearLongPressTimer
  rw [h]

/-- `clearLongPressTimer` on a state with no timer reference leaves the
pending timers alone. -/
theorem clearLongPressTimer_none (m : Machine)
    (h : m.touch.longPressTimer = none) :
    (clearLongPressTimer m).pendingTimers = m.pendingTimers := by
  unfold clearLongPressTimer
  rw [h]

/-- Evaluation of `handleTouchEnd` on the double-tap branch: an active
session, distance under the tap threshold, duration under 300 ms, and less
than 300 ms since the recorded last tap. -/
theorem handleTouchEnd_doubletap (now : Int) (m : Machine)
    (ht : m.touch.isTouching = true)
    (hd : jsSqrt ((m.touch.currentX - m.touch.startX) * (m.touch.currentX - m.touch.startX) +
        (m.touch.currentY - m.touch.startY) * (m.touch.currentY - m.touch.startY)) < TAP_THRESHOLD)
    (hdur : now - m.touch.startTime < 300)
    (hdt : now - m.touch.lastTapTime < 300) :
    handleTouchEnd now m =
      ({ clearLongPressTimer m with
          touch :=
            { m.touch with
                longPressTimer := none, lastTapTime := 0,
                isTouching := false, touchCount := 0 } },
        [Emitted.gesture (.doubletap m.touch.currentX m.touch.currentY (now - m.touch.startTime)),
          Emitted.domEvent .touchend]) := by
  unfold handleTouchEnd
  rw [if_neg (by simp [ht])]
  simp only [clearLongPressTimer_touch]
  rw [if_pos ⟨hd, hdur⟩]
  unfold handleTap
  simp only [clearLongPressTimer_touch]
  rw [if_pos hdt]
  rfl

/-- Evaluation of `handleTouchEnd` on the single-tap branch: as above but at
least 300 ms since the recorded last tap. -/
theorem handleTouchEnd_tap (now : Int) (m : Machine)
    (ht : m.touch.isTouching = true)
    (hd : jsSqrt ((m.touch.currentX - m.touch.startX) * (m.touch.currentX - m.touch.startX) +
        (m.touch.currentY - m.touch.startY) * (m.touch.currentY - m.touch.startY)) < TAP_THRESHOLD)
    (hdur : now - m.touch.startTime < 300)
    (hdt : ¬ now - m.touch.lastTapTime < 300) :
    handleTouchEnd now m =
      ({ clearLongPressTimer m with
          touch :=
            { m.touch with
                longPressTimer := none, lastTapTime := now,
                isTouching := false, touchCount := 0 } },
        [Emitted.gesture (.tap m.touch.currentX m.touch.currentY (now - m.touch.startTime)),
          Emitted.domEvent .touchend]) := by
  unfold handleTouchEnd
  rw [if_neg (by simp [ht])]
  simp only [clearLongPressTimer_touch]
  rw [if_pos ⟨hd, hdur⟩]
  unfold handleTap
  simp only [clearLongPressTimer_touch]
  rw [if_neg hdt]
  rfl

/-- Evaluation of `handleTouchEnd` on the swipe branch: an active session,
distance at least the swipe threshold, duration under 500 ms. -/
theorem handleTouchEnd_swipe (now : Int) (m : Machine) (dX dY : Int)
    (hdX : dX = m.touch.currentX - m.touch.startX)
    (hdY : dY = m.touch.currentY - m.touch.startY)
    (ht : m.touch.isTouching = true)
    (hd : SWIPE_THRESHOLD ≤ jsSqrt (dX * dX + dY * dY))
    (hdur : now - m.touch.startTime < 500) :
    handleTouchEnd now m =
      ({ clearLongPressTimer m with
          touch :=
            { m.touch with
                longPressTimer := none,
                isTouching := false, touchCount := 0 } },
        [Emitted.gesture
          (.swipe
            (if dY.natAbs < dX.natAbs then
              if 0 < dX then Direction.right else Direction.left
            else
              if 0 < dY then Direction.down else Direction.up)
            dX dY (jsSqrt (dX * dX + dY * dY)) (jsAtan2 dY dX * RAD_TO_DEG)
            (jsSqrt (dX * dX + dY * dY) / ((now - m.touch.startTime : Int) : ℚ))
            (now - m.touch.startTime)),
          Emitted.domEvent .touchend]) := by
  subst hdX
  subst hdY
  unfold handleTouchEnd
  rw [if_neg (by simp [ht])]
  simp only [clearLongPressTimer_touch]
  rw [if_neg (fun hc =>
    absurd (lt_of_le_of_lt hd hc.1)
      (by norm_num [TAP_THRESHOLD, SWIPE_THRESHOLD]))]
  rw [if_pos ⟨hd, hdur⟩]
  unfold handleSwipe
  simp only [clearLongPressTimer_touch]
  rfl

end TouchOptimizer

namespace TouchOptimizer

/-! ## Scenario states (concrete runs used by the claims below) -/

/-- State after `handleTouchStart B` with one contact at the origin, from the
initial machine. -/
def tapScenarioStart (B : Int) : Machine :=
  { touch :=
      { startX := 0, startY := 0, startTime := B, currentX := 0, currentY := 0,
        isTouching := true, touchCount := 1, lastTapTime := 0,
        longPressTimer := some 0 },
    gesture := initialGestureState,
    pendingTimers := [(0, B + 500)], nextTimerId := 1 }

/-- State after the first tap of the double-tap scenario completed at
`B + 100`. -/
def tapScenarioAfterFirst (B : Int) : Machine :=
  { touch :=
      { startX := 0, startY := 0, startTime := B, currentX := 0, currentY := 0,
        isTouching := false, touchCount := 0, lastTapTime := B + 100,
        longPressTimer := none },
    gesture := initialGestureState,
    pendingTimers := [], nextTimerId := 1 }

/-- State after the second contact-start of the double-tap scenario at
`B + 150`. -/
def tapScenarioSecondStart (B : Int) : Machine :=
  { touch :=
      { startX := 0, startY := 0, startTime := B + 150, currentX := 0, currentY := 0,
        isTouching := true, touchCount := 1, lastTapTime := B + 100,
        longPressTimer := some 1 },
    gesture := initialGestureState,
    pendingTimers := [(1, B + 150 + 500)], nextTimerId := 2 }

/-- The spec's double-tap scenario: a 100 ms stationary tap at the origin,
then a second one starting 50 ms later; `B` is the clock reading at the first
contact (the spec writes the timestamps relative to it).  Returns the
gestures emitted by the two contact-end events. -/
def doubleTapScenario (B : Int) : Option (List GestureEvent × List GestureEvent) :=
  (handleTouchStart B ⟨[⟨0, 0⟩]⟩ initialMachine).bind fun p1 =>
    let r2 := handleTouchEnd (B + 100) p1.1
    (handleTouchStart (B + 150) ⟨[⟨0, 0⟩]⟩ r2.1).bind fun p3 =>
      let r4 := handleTouchEnd (B + 200) p3.1
      some (gesturesOf r2.2, gesturesOf r4.2)

/-- Evaluation of the double-tap scenario, for any contact-start clock
reading at least 300 (i.e. the recorded-last-tap field, initially 0, does not
pair with the first tap; `Date.now()` readings are epoch milliseconds, so
this holds on any realistic clock). -/
theorem doubleTapScenario_eval (B : Int) (hB : 300 ≤ B) :
    doubleTapScenario B = some ([.tap 0 0 100], [.doubletap 0 0 50]) := by
  have h1 : handleTouchStart B ⟨[⟨0, 0⟩]⟩ initialMachine =
      some (tapScenarioStart B, [Emitted.domEvent .touchstart]) := rfl
  have h2 : handleTouchEnd (B + 100) (tapScenarioStart B) =
      (tapScenarioAfterFirst B,
        [Emitted.gesture (.tap 0 0 100), Emitted.domEvent .touchend]) := by
    have h := handleTouchEnd_tap (B + 100) (tapScenarioStart B) rfl
      (by show jsSqrt ((0 - 0) * (0 - 0) + (0 - 0) * (0 - 0)) < TAP_THRESHOLD; decide)
      (by show B + 100 - B < 300; omega)
      (by show ¬ B + 100 - 0 < 300; omega)
    rw [h]
    simp only [tapScenarioStart, tapScenarioAfterFirst, clearLongPressTimer,
      clearTimeoutJs, List.filter]
    norm_num
  have h3 : handleTouchStart (B + 150) ⟨[⟨0, 0⟩]⟩ (tapScenarioAfterFirst B) =
      some (tapScenarioSecondStart B, [Emitted.domEvent .touchstart]) := rfl
  have h4 : gesturesOf (handleTouchEnd (B + 200) (tapScenarioSecondStart B)).2 =
      [.doubletap 0 0 50] := by
    have h := handleTouchEnd_doubletap (B + 200) (tapScenarioSecondStart B) rfl
      (by show jsSqrt ((0 - 0) * (0 - 0) + (0 - 0) * (0 - 0)) < TAP_THRESHOLD; decide)
      (by show B + 200 - (B + 150) < 300; omega)
      (by show B + 200 - (B + 100) < 300; omega)
    rw [h]
    have e : B + 200 - (B + 150) = (50 : Int) := by ring
    simp only [gesturesOf, List.filterMap, tapScenarioSecondStart, e]
  unfold doubleTapScenario
  rw [h1]
  simp only [Option.some_bind]
  rw [h2]
  simp only []
  rw [h3]
  simp only [Option.some_bind]
  rw [h4]
  rfl

/-! ## Claims -/

/-- C1: for every contact-end of an active session with displacement
distance under 10 px and duration under 300 ms, `handleTouchEnd` emits
exactly one gesture — `doubletap` when less than 300 ms have passed since
the recorded last tap, `tap` otherwise, never both; and the spec's concrete
two-tap scenario produces `Tap{x:0, y:0, duration:100}` followed by a
`DoubleTap`. -/
theorem C1_tap_doubletap_classification :
    (∀ (m : Machine) (now : Int),
      m.touch.isTouching = true →
      jsSqrt ((m.touch.currentX - m.touch.startX) * (m.touch.currentX - m.touch.startX) +
          (m.touch.currentY - m.touch.startY) * (m.touch.currentY - m.touch.startY)) <
        TAP_THRESHOLD →
      now - m.touch.startTime < 300 →
      gesturesOf (handleTouchEnd now m).2 =
        (if now - m.touch.lastTapTime < 300 then
          [GestureEvent.doubletap m.touch.currentX m.touch.currentY (now - m.touch.startTime)]
        else
          [GestureEvent.tap m.touch.currentX m.touch.currentY (now - m.touch.startTime)])) ∧
    (∀ B : Int, 300 ≤ B →
      doubleTapScenario B = some ([.tap 0 0 100], [.doubletap 0 0 50])) := by
  constructor
  · intro m now ht hd hdur
    by_cases hdt : now - m.touch.lastTapTime < 300
    · rw [handleTouchEnd_doubletap now m ht hd hdur hdt, if_pos hdt]
      rfl
    · rw [handleTouchEnd_tap now m ht hd hdur hdt, if_neg hdt]
      rfl
  · exact doubleTapScenario_eval

/-- Witness for C1 at concrete inputs: a 100 ms stationary contact ending at
clock 1100 with last tap recorded at 0 classifies as a single tap, and the
double-tap scenario based at clock 1000 produces tap then double-tap. -/
theorem C1_witness :
    gesturesOf (handleTouchEnd 1100 (tapScenarioStart 1000)).2 =
      [GestureEvent.tap 0 0 100] ∧
    doubleTapScenario 1000 = some ([.tap 0 0 100], [.doubletap 0 0 50]) := by
  constructor
  · have h := C1_tap_doubletap_classification.1 (tapScenarioStart 1000) 1100 rfl
      (by decide) (by decide)
    rw [h]
    decide
  · exact C1_tap_doubletap_classification.2 1000 (by norm_num)

end TouchOptimizer

namespace TouchOptimizer

/-- The spec's swipe scenario: contact at the origin at clock 0, move to
(40, 0) (the move event carries no clock reading — `handleTouchMove` never
reads the clock), end at clock 200.  Returns the gestures emitted at contact
end. -/
def swipeScenario : Option (List GestureEvent) :=
  (handleTouchStart 0 ⟨[⟨0, 0⟩]⟩ initialMachine).bind fun p1 =>
    (handleTouchMove ⟨[⟨40, 0⟩]⟩ p1.1).bind fun p2 =>
      some (gesturesOf (handleTouchEnd 200 p2.1).2)

/-- The session state reached in the swipe scenario just before contact end:
started at the origin at clock 0, current position (40, 0), long-press timer
already cleared by the move. -/
def swipeEndState : Machine :=
  { touch :=
      { startX := 0, startY := 0, startTime := 0, currentX := 40, currentY := 0,
        isTouching := true, touchCount := 1, lastTapTime := 0,
        longPressTimer := none },
    gesture := initialGestureState,
    pendingTimers := [], nextTimerId := 1 }

/-- C2: for every contact-end of an active session with displacement
distance at least 30 px and duration under 500 ms, `handleTouchEnd` emits a
single `swipe` whose direction is the dominant axis with the sign-to-
direction mapping of the source (ties to the vertical branch), whose
`velocity` field is `distance / duration`, and whose payload carries the
deltas, distance and duration; the spec's concrete scenario yields
`Swipe{direction:right, distance:40, duration:200, velocity:0.2}`. -/
theorem C2_swipe_classification :
    (∀ (m : Machine) (now dX dY : Int),
      dX = m.touch.currentX - m.touch.startX →
      dY = m.touch.currentY - m.touch.startY →
      m.touch.isTouching = true →
      SWIPE_THRESHOLD ≤ jsSqrt (dX * dX + dY * dY) →
      now - m.touch.startTime < 500 →
      gesturesOf (handleTouchEnd now m).2 =
        [GestureEvent.swipe
          (if dY.natAbs < dX.natAbs then
            if 0 < dX then Direction.right else Direction.left
          else
            if 0 < dY then Direction.down else Direction.up)
          dX dY (jsSqrt (dX * dX + dY * dY)) (jsAtan2 dY dX * RAD_TO_DEG)
          (jsSqrt (dX * dX + dY * dY) / ((now - m.touch.startTime : Int) : ℚ))
          (now - m.touch.startTime)]) ∧
    swipeScenario = some [GestureEvent.swipe .right 40 0 40 0 (1 / 5) 200] := by
  constructor
  · intro m now dX dY hdX hdY ht hd hdur
    rw [handleTouchEnd_swipe now m dX dY hdX hdY ht hd hdur]
    rfl
  · decide

/-- Witness for C2 at concrete inputs: the swipe-scenario end state at clock
200 emits a right swipe of distance 40 with velocity 40/200 = 1/5. -/
theorem C2_witness :
    gesturesOf (handleTouchEnd 200 swipeEndState).2 =
      [GestureEvent.swipe .right 40 0 40 0 (1 / 5) 200] := by
  have h := C2_swipe_classification.1 swipeEndState 200 40 0 rfl rfl rfl
    (by decide) (by decide)
  rw [h]
  decide

end TouchOptimizer

namespace TouchOptimizer

/-- C8: `handleTap` resets `lastTapTime` to 0 when it classifies a
double-tap and records the current clock when it classifies a tap; through
`handleTouchEnd`, a double-tap-classified end leaves `lastTapTime = 0`, so a
third quick tap (at any realistic clock reading, i.e. at least 300) is
classified as a plain tap rather than another double-tap. -/
theorem C8_lastTapTime_update :
    (∀ (m : Machine) (now duration : Int),
      now - m.touch.lastTapTime < 300 →
      handleTap now duration m =
        ({ m with touch := { m.touch with lastTapTime := 0 } },
          [Emitted.gesture (.doubletap m.touch.currentX m.touch.currentY duration)])) ∧
    (∀ (m : Machine) (now duration : Int),
      ¬ now - m.touch.lastTapTime < 300 →
      handleTap now duration m =
        ({ m with touch := { m.touch with lastTapTime := now } },
          [Emitted.gesture (.tap m.touch.currentX m.touch.currentY duration)])) ∧
    (∀ (m : Machine) (now : Int),
      m.touch.isTouching = true →
      jsSqrt ((m.touch.currentX - m.touch.startX) * (m.touch.currentX - m.touch.startX) +
          (m.touch.currentY - m.touch.startY) * (m.touch.currentY - m.touch.startY)) <
        TAP_THRESHOLD →
      now - m.touch.startTime < 300 →
      now - m.touch.lastTapTime < 300 →
      (handleTouchEnd now m).1.touch.lastTapTime = 0) ∧
    (∀ (m : Machine) (now : Int),
      m.touch.lastTapTime = 0 →
      300 ≤ now →
      m.touch.isTouching = true →
      jsSqrt ((m.touch.currentX - m.touch.startX) * (m.touch.currentX - m.touch.startX) +
          (m.touch.currentY - m.touch.startY) * (m.touch.currentY - m.touch.startY)) <
        TAP_THRESHOLD →
      now - m.touch.startTime < 300 →
      gesturesOf (handleTouchEnd now m).2 =
        [GestureEvent.tap m.touch.currentX m.touch.currentY (now - m.touch.startTime)]) := by
  refine ⟨?_, ?_, ?_, ?_⟩
  · intro m now duration hdt
    unfold handleTap
    rw [if_pos hdt]
  · intro m now duration hdt
    unfold handleTap
    rw [if_neg hdt]
  · intro m now ht hd hdur hdt
    rw [handleTouchEnd_doubletap now m ht hd hdur hdt]
  · intro m now h0 h300 ht hd hdur
    have hdt : ¬ now - m.touch.lastTapTime < 300 := by rw [h0]; omega
    rw [handleTouchEnd_tap now m ht hd hdur hdt]
    rfl

/-- Witness for C8 at concrete inputs: a quick pair of taps resets
`lastTapTime` to 0 on the double-tap, a late tap records the clock, a
double-tap-classified end leaves `lastTapTime = 0`, and the following quick
tap at clock 1100 is a plain tap. -/
theorem C8_witness :
    handleTap 1200 50 (tapScenarioSecondStart 1000) =
      ({ tapScenarioSecondStart 1000 with
          touch := { (tapScenarioSecondStart 1000).touch with lastTapTime := 0 } },
        [Emitted.gesture (.doubletap 0 0 50)]) ∧
    handleTap 900 50 (tapScenarioStart 0) =
      ({ tapScenarioStart 0 with
          touch := { (tapScenarioStart 0).touch with lastTapTime := 900 } },
        [Emitted.gesture (.tap 0 0 50)]) ∧
    (handleTouchEnd 1200 (tapScenarioSecondStart 1000)).1.touch.lastTapTime = 0 ∧
    gesturesOf (handleTouchEnd 1100 (tapScenarioStart 1000)).2 =
      [GestureEvent.tap 0 0 100] := by
  refine ⟨?_, ?_, ?_, ?_⟩
  · have h := C8_lastTapTime_update.1 (tapScenarioSecondStart 1000) 1200 50 (by decide)
    rw [h]
    decide
  · have h := C8_lastTapTime_update.2.1 (tapScenarioStart 0) 900 50 (by decide)
    rw [h]
    decide
  · exact C8_lastTapTime_update.2.2.1 (tapScenarioSecondStart 1000) 1200 rfl
      (by decide) (by decide) (by decide)
  · have h := C8_lastTapTime_update.2.2.2 (tapScenarioStart 1000) 1100 rfl
      (by decide) rfl (by decide) (by decide)
    rw [h]
    decide

/-- C10: calling `handleTouchMove` or `handleTouchEnd` with no active
session (`isTouching = false`) is a no-op: the handler returns immediately,
the machine state is unchanged, and nothing at all is emitted (not even the
pass-through custom event). -/
theorem C10_inactive_noop :
    ∀ m : Machine, m.touch.isTouching = false →
      (∀ ev : TouchEvt, handleTouchMove ev m = some (m, [])) ∧
      (∀ now : Int, handleTouchEnd now m = (m, [])) := by
  intro m ht
  constructor
  · intro ev
    unfold handleTouchMove
    rw [if_pos ht]
  · intro now
    unfold handleTouchEnd
    rw [if_pos ht]

/-- Witness for C10 at concrete inputs: on the initial machine (no active
session), a move with one contact and an end at clock 42 both return the
machine unchanged and emit nothing. -/
theorem C10_witness :
    handleTouchMove ⟨[⟨3, 4⟩]⟩ initialMachine = some (initialMachine, []) ∧
    handleTouchEnd 42 initialMachine = (initialMachine, []) :=
  ⟨(C10_inactive_noop initialMachine rfl).1 ⟨[⟨3, 4⟩]⟩,
    (C10_inactive_noop initialMachine rfl).2 42⟩

end TouchOptimizer

namespace TouchOptimizer

/-- C4 counterexample: starting a second contact at clock 100 while the
first (clock 0) session's long-press timer is still pending does NOT disarm
that timer — afterwards both timers (ids 0 and 1) are outstanding, refuting
"any previously armed long-press timer is disarmed before a new one is
armed" and "at most one long-press callback is outstanding". -/
theorem C4_counterexample :
    ((handleTouchStart 0 ⟨[⟨0, 0⟩]⟩ initialMachine).bind fun p =>
        handleTouchStart 100 ⟨[⟨0, 0⟩]⟩ p.1).map (fun q => q.1.pendingTimers) =
      some [(0, 500), (1, 600)] := by decide

/-- C4 (amended): `handleTouchStart` arms a fresh long-press timer and
stores its id, but never disarms a previously armed timer — every previously
pending timer is still pending afterwards, so two long-press callbacks can
be outstanding at once (only the newest is referenced by the session). -/
theorem C4_no_disarm_on_start :
    ∀ (now : Int) (ev : TouchEvt) (m : Machine) (p : Machine × List Emitted),
      handleTouchStart now ev m = some p →
      p.1.pendingTimers =
        m.pendingTimers ++ [(m.nextTimerId, now + LONG_PRESS_DURATION)] ∧
      p.1.touch.longPressTimer = some m.nextTimerId := by
  intro now ev m p h
  obtain ⟨h1, h2, h3, h4⟩ := handleTouchStart_char now ev m p h
  exact ⟨h3, h2⟩

/-- Machine after the second contact-start of the C4 run: both timers
pending. -/
def secondStartResult : Machine :=
  { touch :=
      { startX := 0, startY := 0, startTime := 100, currentX := 0, currentY := 0,
        isTouching := true, touchCount := 1, lastTapTime := 0,
        longPressTimer := some 1 },
    gesture := initialGestureState,
    pendingTimers := [(0, 500), (1, 600)], nextTimerId := 2 }

/-- Witness for the amended C4 at concrete inputs: the second contact-start
at clock 100 keeps timer 0 pending and arms timer 1. -/
theorem C4_witness :
    secondStartResult.pendingTimers =
      (tapScenarioStart 0).pendingTimers ++
        [((tapScenarioStart 0).nextTimerId, 100 + LONG_PRESS_DURATION)] ∧
    secondStartResult.touch.longPressTimer =
      some (tapScenarioStart 0).nextTimerId :=
  C4_no_disarm_on_start 100 ⟨[⟨0, 0⟩]⟩ (tapScenarioStart 0)
    (secondStartResult, [Emitted.domEvent .touchstart]) (by decide)

/-- C5 counterexample: a two-contact session (contacts at x=0 and x=100)
ended at clock 400 leaves `touchCount = 0` but the two-contact gesture state
still holds reference distance 100 — `handleTouchEnd` does not clear the
two-contact state, and that state persists while `activeContactCount ≠ 2`. -/
theorem C5_counterexample :
    ((handleTouchStart 0 ⟨[⟨0, 0⟩, ⟨100, 0⟩]⟩ initialMachine).map fun p =>
        ((handleTouchEnd 400 p.1).1.touch.touchCount,
          (handleTouchEnd 400 p.1).1.gesture)) =
      some (0, { scale := 1, rot := 0, initialDistance := 100, initialAngle := 0 }) := by
  decide

/-- C5 (amended): `handleTouchEnd` resets `isTouching` and `touchCount`
regardless of the classification outcome, but the two-contact gesture state
(scale, rotation, reference distance/angle) is left entirely unchanged — it
survives the end of the session. -/
theorem C5_end_resets_session_not_gesture :
    ∀ (m : Machine) (now : Int),
      (handleTouchEnd now m).1.gesture = m.gesture ∧
      (m.touch.isTouching = true →
        (handleTouchEnd now m).1.touch.isTouching = false ∧
          (handleTouchEnd now m).1.touch.touchCount = 0) := by
  intro m now
  constructor
  · simp only [handleTouchEnd]
    split
    · rfl
    · simp only [handleTap, handleSwipe]
      split
      · split <;> simp [clearLongPressTimer_gesture]
      · split
        · simp [clearLongPressTimer_gesture]
        · simp [clearLongPressTimer_gesture]
  · intro ht
    unfold handleTouchEnd
    rw [if_neg (by simp [ht])]
    exact ⟨rfl, rfl⟩

/-- Machine after a two-contact start (contacts at x=0 and x=100, clock 0):
session active with `touchCount = 2` and reference distance 100. -/
def twoTouchStartState : Machine :=
  { touch :=
      { startX := 0, startY := 0, startTime := 0, currentX := 0, currentY := 0,
        isTouching := true, touchCount := 2, lastTapTime := 0,
        longPressTimer := some 0 },
    gesture := { scale := 1, rot := 0, initialDistance := 100, initialAngle := 0 },
    pendingTimers := [(0, 500)], nextTimerId := 1 }

/-- Witness for the amended C5 at concrete inputs: ending the two-contact
session at clock 400 keeps the gesture state and resets the session flags. -/
theorem C5_witness :
    (handleTouchEnd 400 twoTouchStartState).1.gesture = twoTouchStartState.gesture ∧
    (handleTouchEnd 400 twoTouchStartState).1.touch.isTouching = false ∧
    (handleTouchEnd 400 twoTouchStartState).1.touch.touchCount = 0 :=
  ⟨(C5_end_resets_session_not_gesture twoTouchStartState 400).1,
    (C5_end_resets_session_not_gesture twoTouchStartState 400).2 rfl⟩

/-- C9 counterexample: cancelling a two-contact session leaves the
two-contact gesture state in place (reference distance 100 survives), so the
claim's "discards the session and two-contact state" fails — while the
"emits no gesture" part does hold on this run. -/
theorem C9_counterexample :
    ((handleTouchStart 0 ⟨[⟨0, 0⟩, ⟨100, 0⟩]⟩ initialMachine).map fun p =>
        ((handleTouchCancel p.1).1.gesture, gesturesOf (handleTouchCancel p.1).2)) =
      some ({ scale := 1, rot := 0, initialDistance := 100, initialAngle := 0 }, []) := by
  decide

/-- C9 (amended): `handleTouchCancel` disarms the long-press timer the
session references, resets `isTouching` and `touchCount`, and emits no
classified gesture — but it leaves the two-contact gesture state unchanged. -/
theorem C9_cancel_behavior :
    ∀ m : Machine,
      (handleTouchCancel m).1.gesture = m.gesture ∧
      (handleTouchCancel m).1.touch.isTouching = false ∧
      (handleTouchCancel m).1.touch.touchCount = 0 ∧
      (handleTouchCancel m).1.touch.longPressTimer = none ∧
      gesturesOf (handleTouchCancel m).2 = [] ∧
      (∀ id : Nat, m.touch.longPressTimer = some id →
        (handleTouchCancel m).1.pendingTimers = clearTimeoutJs id m.pendingTimers) := by
  intro m
  refine ⟨?_, rfl, rfl, ?_, rfl, ?_⟩
  · unfold handleTouchCancel
    simp [clearLongPressTimer_gesture]
  · unfold handleTouchCancel
    simp [clearLongPressTimer_touch]
  · intro id hid
    unfold handleTouchCancel
    simp only []
    exact clearLongPressTimer_some m id hid

/-- Witness for the amended C9 at concrete inputs: cancelling the two-contact
session clears timer 0, resets the session flags, emits nothing, and keeps
the gesture state. -/
theorem C9_witness :
    (handleTouchCancel twoTouchStartState).1.gesture = twoTouchStartState.gesture ∧
    (handleTouchCancel twoTouchStartState).1.touch.isTouching = false ∧
    (handleTouchCancel twoTouchStartState).1.touch.longPressTimer = none ∧
    gesturesOf (handleTouchCancel twoTouchStartState).2 = [] ∧
    (handleTouchCancel twoTouchStartState).1.pendingTimers =
      clearTimeoutJs 0 twoTouchStartState.pendingTimers := by
  have h := C9_cancel_behavior twoTouchStartState
  exact ⟨h.1, h.2.1, h.2.2.2.1, h.2.2.2.2.1, h.2.2.2.2.2 0 rfl⟩

end TouchOptimizer

namespace TouchOptimizer

/-- A timer can never fire before its deadline. -/
theorem fireTimer_none_of_not_due (m : Machine) (now : Int) (id : Nat)
    (h : ∀ q ∈ m.pendingTimers, now < q.2) :
    fireTimer now id m = none := by
  unfold fireTimer
  cases hf : m.pendingTimers.find? (fun p => p.1 = id) with
  | none => rfl
  | some q =>
    simp only []
    rw [if_neg (not_le.mpr (h q (List.mem_of_find?_eq_some hf)))]

/-- With no pending timers, nothing can fire. -/
theorem fireTimer_none_of_empty (m : Machine) (now : Int) (id : Nat)
    (h : m.pendingTimers = []) :
    fireTimer now id m = none := by
  unfold fireTimer
  rw [h]
  rfl

/-- C7: a pending long-press timer whose deadline has passed fires exactly
one `longpress` gesture carrying the current position and the configured
long-press duration (500 ms default), consumes only that timer, and leaves
the whole session state — in particular `isTouching` — untouched. -/
theorem C7_longpress_fire :
    ∀ (m : Machine) (now : Int) (id : Nat) (deadline : Int),
      m.pendingTimers.find? (fun p => p.1 = id) = some (id, deadline) →
      deadline ≤ now →
      fireTimer now id m =
        some ({ m with pendingTimers := clearTimeoutJs id m.pendingTimers },
          [Emitted.gesture
            (.longpress m.touch.currentX m.touch.currentY LONG_PRESS_DURATION)]) ∧
      ((fireTimer now id m).map fun q => q.1.touch) = some m.touch := by
  intro m now id deadline hfind hdl
  have h : fireTimer now id m =
      some ({ m with pendingTimers := clearTimeoutJs id m.pendingTimers },
        [Emitted.gesture
          (.longpress m.touch.currentX m.touch.currentY LONG_PRESS_DURATION)]) := by
    unfold fireTimer
    rw [hfind]
    simp only []
    rw [if_pos (show ((id, deadline) : Nat × Int).2 ≤ now from hdl)]
    rfl
  refine ⟨h, ?_⟩
  rw [h]
  rfl

/-- Witness for C7 at concrete inputs: the two-contact session's timer 0
(deadline 500) fired at clock 500 emits one `longpress` at the current
position (0,0) with duration 500 and leaves the session active. -/
theorem C7_witness :
    fireTimer 500 0 twoTouchStartState =
      some ({ twoTouchStartState with
          pendingTimers := clearTimeoutJs 0 twoTouchStartState.pendingTimers },
        [Emitted.gesture (.longpress 0 0 500)]) ∧
    ((fireTimer 500 0 twoTouchStartState).map fun q => q.1.touch) =
      some twoTouchStartState.touch := by
  have h := C7_longpress_fire twoTouchStartState 500 0 500 (by decide) (by decide)
  exact ⟨h.1, h.2⟩

end TouchOptimizer

namespace TouchOptimizer

/-- The spec's pinch scenario: two contacts 100 px apart, then a move with
the contacts 150 px apart.  Returns the gestures emitted by the move. -/
def pinchScenario : Option (List GestureEvent) :=
  (handleTouchStart 0 ⟨[⟨0, 0⟩, ⟨100, 0⟩]⟩ initialMachine).bind fun p =>
    (handleTouchMove ⟨[⟨0, 0⟩, ⟨150, 0⟩]⟩ p.1).map fun q => gesturesOf q.2

/-- C6: on every two-contact move of an active session, the pinch scale is
`currentDistance / referenceDistance`, guarded against division by zero
(`referenceDistance = 0` leaves the scale unchanged), and a `pinch` carrying
that scale and the midpoint of the two contacts as center is emitted (the
`rotate` that accompanies it is also shown); two contacts moving apart from
100 px to 150 px emit a pinch of scale exactly 3/2 (within the spec's ±0.01
tolerance of 1.5). -/
theorem C6_pinch_scale :
    (∀ (m : Machine) (ev : TouchEvt) (t1 t2 : ContactPoint),
      ev.touches = [t1, t2] →
      m.touch.isTouching = true →
      ∀ dx dy : Int,
        dx = t2.clientX - t1.clientX →
        dy = t2.clientY - t1.clientY →
        ((handleTouchMove ev m).map fun p => gesturesOf p.2) =
          some
            [GestureEvent.pinch
              (if 0 < m.gesture.initialDistance then
                jsSqrt (dx * dx + dy * dy) / m.gesture.initialDistance
              else m.gesture.scale)
              (((t1.clientX + t2.clientX : Int) : ℚ) / 2)
              (((t1.clientY + t2.clientY : Int) : ℚ) / 2),
              GestureEvent.rotate (jsAtan2 dy dx - m.gesture.initialAngle)
                (((t1.clientX + t2.clientX : Int) : ℚ) / 2)
                (((t1.clientY + t2.clientY : Int) : ℚ) / 2)] ∧
        ((handleTouchMove ev m).map fun p => p.1.gesture.scale) =
          some (if 0 < m.gesture.initialDistance then
            jsSqrt (dx * dx + dy * dy) / m.gesture.initialDistance
          else m.gesture.scale)) ∧
    pinchScenario =
      some [GestureEvent.pinch (3 / 2) 75 0, GestureEvent.rotate 0 75 0] := by
  constructor
  · intro m ev t1 t2 hev ht dx dy hdx hdy
    subst hdx
    subst hdy
    unfold handleTouchMove
    rw [if_neg (by simp [ht])]
    rw [hev]
    simp only []
    rw [if_pos (show ([t1, t2].length = 2 ∧ ENABLE_PINCH_ZOOM = true) from ⟨rfl, rfl⟩)]
    unfold handleMultiTouchMove
    rw [hev]
    simp only [clearLongPressTimer_gesture]
    constructor
    · by_cases hg : 0 < m.gesture.initialDistance
      · rw [if_pos hg, if_pos hg]
        simp [gesturesOf, ENABLE_ROTATE]
      · rw [if_neg hg, if_neg hg]
        simp [gesturesOf, ENABLE_ROTATE]
    · by_cases hg : 0 < m.gesture.initialDistance
      · rw [if_pos hg, if_pos hg]
        simp [ENABLE_ROTATE]
      · rw [if_neg hg, if_neg hg]
        simp [ENABLE_ROTATE]
  · decide

/-- Witness for C6 at concrete inputs: from the two-contact session with
reference distance 100, a move to contacts (0,0) and (150,0) emits a pinch
of scale 3/2 centered at (75, 0). -/
theorem C6_witness :
    ((handleTouchMove ⟨[⟨0, 0⟩, ⟨150, 0⟩]⟩ twoTouchStartState).map
        fun p => gesturesOf p.2) =
      some [GestureEvent.pinch (3 / 2) 75 0, GestureEvent.rotate 0 75 0] := by
  have h := (C6_pinch_scale.1 twoTouchStartState ⟨[⟨0, 0⟩, ⟨150, 0⟩]⟩
    ⟨0, 0⟩ ⟨150, 0⟩ rfl rfl 150 0 rfl rfl).1
  rw [h]
  decide

end TouchOptimizer

namespace TouchOptimizer

/-- A successful `handleTouchMove` on an active session that references
timer `id` clears that timer and nulls the reference — unconditionally,
whatever the movement magnitude. -/
theorem handleTouchMove_clears (ev : TouchEvt) (m : Machine)
    (p : Machine × List Emitted) (id : Nat)
    (ht : m.touch.isTouching = true) (hid : m.touch.longPressTimer = some id)
    (h : handleTouchMove ev m = some p) :
    p.1.pendingTimers = clearTimeoutJs id m.pendingTimers ∧
    p.1.touch.longPressTimer = none := by
  unfold handleTouchMove at h
  rw [if_neg (by simp [ht])] at h
  rcases hev : ev.touches with _ | ⟨touch, rest⟩
  · rw [hev] at h
    exact absurd h (by simp)
  · rw [hev] at h
    simp only [Option.some.injEq] at h
    subst h
    by_cases hc : (touch :: rest).length = 2 ∧ ENABLE_PINCH_ZOOM = true
    · rw [if_pos hc]
      constructor
      · rw [handleMultiTouchMove_pendingTimers]
        exact clearLongPressTimer_some _ id hid
      · rw [handleMultiTouchMove_touch, clearLongPressTimer_touch]
    · rw [if_neg hc]
      constructor
      · exact clearLongPressTimer_some _ id hid
      · simp only [clearLongPressTimer_touch]

/-- `handleMultiTouchMove` emits only pinch/rotate gestures. -/
theorem handleMultiTouchMove_no_longpress (ev : TouchEvt) (m : Machine)
    (x y d : Int) :
    GestureEvent.longpress x y d ∉ gesturesOf (handleMultiTouchMove ev m).2 := by
  unfold handleMultiTouchMove
  rcases ev with ⟨_ | ⟨t1, _ | ⟨t2, rest⟩⟩⟩ <;>
    simp [gesturesOf, List.filterMap, ENABLE_ROTATE]

/-- `handleTouchEnd` never emits a longpress (only `triggerLongPress`,
via a firing timer, does). -/
theorem handleTouchEnd_no_longpress (now : Int) (m : Machine) (x y d : Int) :
    GestureEvent.longpress x y d ∉ gesturesOf (handleTouchEnd now m).2 := by
  simp only [handleTouchEnd]
  split
  · simp [gesturesOf]
  · simp only [handleTap, handleSwipe]
    split
    · split <;> simp [gesturesOf, List.filterMap]
    · split <;> simp [gesturesOf, List.filterMap]

/-- `handleTouchMove` never emits a longpress. -/
theorem handleTouchMove_no_longpress (ev : TouchEvt) (m : Machine)
    (p : Machine × List Emitted) (h : handleTouchMove ev m = some p)
    (x y d : Int) :
    GestureEvent.longpress x y d ∉ gesturesOf p.2 := by
  unfold handleTouchMove at h
  split at h
  · simp only [Option.some.injEq] at h
    subst h
    simp [gesturesOf]
  · rcases hev : ev.touches with _ | ⟨touch, rest⟩
    · rw [hev] at h
      exact absurd h (by simp)
    · rw [hev] at h
      simp only [Option.some.injEq] at h
      subst h
      by_cases hc : (touch :: rest).length = 2 ∧ ENABLE_PINCH_ZOOM = true
      · rw [if_pos hc]
        simp only [gesturesOf_append, List.mem_append]
        rintro (hmem | hmem)
        · exact handleMultiTouchMove_no_longpress ev _ x y d hmem
        · simp [gesturesOf] at hmem
      · rw [if_neg hc]
        simp [gesturesOf, List.filterMap]

/-- C3: a move event of any magnitude on an active session disarms the
pending long-press timer unconditionally.  For a `start → move → end`
sequence (from a state with no stray timers): the timer armed at the start
cannot fire before its 500 ms deadline, after the move no timer is pending
at all (so nothing can fire at any later time), and neither the move nor the
end — at any clock reading — emits a LongPress. -/
theorem C3_move_disarms_longpress :
    ∀ (m0 : Machine) (now0 : Int) (ev0 evm : TouchEvt)
      (p1 p2 : Machine × List Emitted),
      m0.pendingTimers = [] →
      handleTouchStart now0 ev0 m0 = some p1 →
      handleTouchMove evm p1.1 = some p2 →
      (∀ (t : Int) (id : Nat), t < now0 + LONG_PRESS_DURATION →
        fireTimer t id p1.1 = none) ∧
      p2.1.pendingTimers = [] ∧
      (∀ (t : Int) (id : Nat), fireTimer t id p2.1 = none) ∧
      (∀ now x y d : Int,
        GestureEvent.longpress x y d ∉ gesturesOf (handleTouchEnd now p2.1).2) ∧
      (∀ x y d : Int, GestureEvent.longpress x y d ∉ gesturesOf p2.2) := by
  intro m0 now0 ev0 evm p1 p2 h0 h1 h2
  obtain ⟨ht1, hlp1, htimers1, hstime1⟩ := handleTouchStart_char now0 ev0 m0 p1 h1
  have htimers1' : p1.1.pendingTimers =
      [(m0.nextTimerId, now0 + LONG_PRESS_DURATION)] := by
    rw [htimers1, h0]
    rfl
  have hclear := handleTouchMove_clears evm p1.1 p2 m0.nextTimerId ht1 hlp1 h2
  have hempty : p2.1.pendingTimers = [] := by
    rw [hclear.1, htimers1']
    simp [clearTimeoutJs]
  refine ⟨?_, hempty, ?_, ?_, ?_⟩
  · intro t id hlt
    apply fireTimer_none_of_not_due
    intro q hq
    rw [htimers1'] at hq
    simp only [List.mem_singleton] at hq
    rw [hq]
    exact hlt
  · intro t id
    exact fireTimer_none_of_empty p2.1 t id hempty
  · intro now x y d
    exact handleTouchEnd_no_longpress now p2.1 x y d
  · intro x y d
    exact handleTouchMove_no_longpress evm p1.1 p2 h2 x y d

/-- The state of the C3 witness run after `start(0,0,t=0)` then a move with
one contact at (5,5): current position updated, long-press timer disarmed. -/
def movedState : Machine :=
  { touch :=
      { startX := 0, startY := 0, startTime := 0, currentX := 5, currentY := 5,
        isTouching := true, touchCount := 1, lastTapTime := 0,
        longPressTimer := none },
    gesture := initialGestureState,
    pendingTimers := [], nextTimerId := 1 }

/-- Witness for C3 at concrete inputs: after start at clock 0 and a move to
(5,5), timer 0 cannot fire at clock 400, no timer is pending, a fire attempt
at clock 9999 yields nothing, and the end at clock 600 emits no longpress. -/
theorem C3_witness :
    fireTimer 400 0 (tapScenarioStart 0) = none ∧
    movedState.pendingTimers = [] ∧
    fireTimer 9999 0 movedState = none ∧
    GestureEvent.longpress 5 5 500 ∉ gesturesOf (handleTouchEnd 600 movedState).2 := by
  have h := C3_move_disarms_longpress initialMachine 0 ⟨[⟨0, 0⟩]⟩ ⟨[⟨5, 5⟩]⟩
    (tapScenarioStart 0, [Emitted.domEvent .touchstart])
    (movedState, [Emitted.domEvent .touchmove]) rfl (by decide) (by decide)
  exact ⟨h.1 400 0 (by decide), h.2.1, h.2.2.1 9999 0, h.2.2.2.1 600 5 5 500⟩

end TouchOptimizer
